import Mathlib

/-!
Verification development for the SawyerPushAndReachTXY environment
(multiworld/envs/mujoco/sawyer_xyz/sawyer_push_T.py).

The Python file is a thin adapter around an external physics engine.  We
embed its pure computations directly.  The physics engine itself
(do_simulation, forward kinematics) is opaque: it is modelled by explicit
function parameters (physics : MjState to MjState for do_simulation, and
fwd : MjState to Readings for the derived body positions / orientations
that the engine recomputes after every state write).  All numeric
quantities are modelled as real numbers; numpy float arithmetic is
idealised as exact real arithmetic.
-/

open Real

/-- Two-argument arctangent, written through the complex argument: atan2 y x
is the argument of the complex number x + y i, landing in the interval
from minus pi (exclusive) to pi (inclusive), with atan2 0 0 = 0 as in numpy. -/
noncomputable def atan2 (y x : ℝ) : ℝ := Complex.arg ((x : ℂ) + (y : ℂ) * Complex.I)

/-- Transcription of theta_to_quat.  The source builds
scipy.Rotation.from_euler with axes string zxy (lowercase, hence extrinsic)
and angles (theta, 0, 0); since the second and third angles are zero this
is the pure rotation about the vertical z axis by theta.  Its quaternion in
scipy order (x, y, z, w) is (0, 0, sin (theta / 2), cos (theta / 2)); the
Python function unpacks that and returns the tuple (w, x, y, z). -/
noncomputable def theta_to_quat (θ : ℝ) : ℝ × ℝ × ℝ × ℝ :=
  (Real.cos (θ / 2), 0, 0, Real.sin (θ / 2))

/-- Transcription of quat_to_theta.  The source converts the quaternion
(x, y, z, w) to a rotation and takes the first angle of its Euler
decomposition with axes string zyx (lowercase, hence extrinsic z then y
then x about fixed axes).  In the non-degenerate branch that first angle is
atan2 applied to (2 (w z - x y)) and (w^2 + x^2 - y^2 - z^2), the
scale-invariant form of the usual unit-quaternion expression
atan2 (2 (w z - x y)) (1 - 2 (y^2 + z^2)).  All call sites in the file
feed it quaternions of pure rotations about z, where this branch applies. -/
noncomputable def quat_to_theta (x y z w : ℝ) : ℝ :=
  atan2 (2 * (w * z - x * y)) (w ^ 2 + x ^ 2 - y ^ 2 - z ^ 2)

/-- Composition quat_to_theta after theta_to_quat, matching the argument
unpacking used at the Python call sites: theta_to_quat returns (w, x, y, z)
and quat_to_theta takes (x, y, z, w). -/
noncomputable def theta_roundtrip (θ : ℝ) : ℝ :=
  quat_to_theta (theta_to_quat θ).2.1 (theta_to_quat θ).2.2.1
    (theta_to_quat θ).2.2.2 (theta_to_quat θ).1

lemma atan2_sin_cos (θ : ℝ) :
    ∃ k : ℤ, atan2 (Real.sin θ) (Real.cos θ) = θ + 2 * Real.pi * k := by
  have hz : ((Real.cos θ : ℂ)) + (Real.sin θ : ℂ) * Complex.I
      = Complex.exp ((θ : ℂ) * Complex.I) := by
    rw [Complex.exp_mul_I, Complex.ofReal_cos, Complex.ofReal_sin]
  have habs : Complex.abs (Complex.exp ((θ : ℂ) * Complex.I)) = 1 :=
    Complex.abs_exp_ofReal_mul_I θ
  have h2 := Complex.abs_mul_exp_arg_mul_I (Complex.exp ((θ : ℂ) * Complex.I))
  rw [habs] at h2
  push_cast at h2
  rw [one_mul] at h2
  rw [Complex.exp_eq_exp_iff_exists_int] at h2
  obtain ⟨n, hn⟩ := h2
  refine ⟨n, ?_⟩
  unfold atan2
  rw [hz]
  have hn2 : ((Complex.exp ((θ : ℂ) * Complex.I)).arg : ℂ) * Complex.I
      = ((θ : ℝ) + 2 * Real.pi * n : ℝ) * Complex.I := by
    rw [hn]
    push_cast
    ring
  have hre := mul_right_cancel₀ Complex.I_ne_zero hn2
  exact_mod_cast hre

lemma theta_roundtrip_eq (θ : ℝ) :
    theta_roundtrip θ = atan2 (Real.sin θ) (Real.cos θ) := by
  have e1 : (2 : ℝ) * (θ / 2) = θ := by ring
  have hs := Real.sin_two_mul (θ / 2)
  rw [e1] at hs
  have hc := Real.cos_two_mul' (θ / 2)
  rw [e1] at hc
  simp only [theta_roundtrip, theta_to_quat, quat_to_theta]
  congr 1
  · rw [hs]; ring
  · rw [hc]; ring

/-- C3: for every real angle theta, composing the angle-to-quaternion
conversion theta_to_quat (Euler order zxy) with the quaternion-to-angle
conversion quat_to_theta (Euler order zyx) returns an angle congruent to
theta modulo 2 pi; in exact real arithmetic the congruence is exact, hence
in particular within the 1e-6 tolerance. -/
theorem C3_theta_quat_roundtrip (θ : ℝ) :
    ∃ k : ℤ, theta_roundtrip θ = θ + 2 * Real.pi * k ∧
      |theta_roundtrip θ - (θ + 2 * Real.pi * k)| ≤ 1e-6 := by
  obtain ⟨k, hk⟩ := atan2_sin_cos θ
  refine ⟨k, ?_, ?_⟩
  · rw [theta_roundtrip_eq]; exact hk
  · rw [theta_roundtrip_eq, hk, sub_self, abs_zero]; norm_num

/-- Scalar clip as numpy np.clip: the minimum of the upper bound with the
maximum of the value and the lower bound. -/
noncomputable def npClip (x lo hi : ℝ) : ℝ := min hi (max x lo)

/-- Euclidean norm of a fixed-length vector, as np.linalg.norm. -/
noncomputable def npNorm {n : ℕ} (v : Fin n → ℝ) : ℝ :=
  Real.sqrt (∑ i, v i ^ 2)

/-- Euclidean norm of a list vector, as np.linalg.norm on a 1-d array. -/
noncomputable def npNormList (v : List ℝ) : ℝ :=
  Real.sqrt ((v.map (fun t => t ^ 2)).sum)

/-- Componentwise subtraction of two numpy arrays.  Numpy requires the two
shapes to match; claims about it therefore carry an equal-length
hypothesis. -/
noncomputable def listSub (xs ys : List ℝ) : List ℝ :=
  List.zipWith (fun u v => u - v) xs ys

/-- Slice assignment f with indices lo to hi (exclusive) overwritten by the
entries of vals, as the numpy statement f[lo:hi] = vals with vals of length
hi - lo. -/
noncomputable def sliceSet {n : ℕ} (f : Fin n → ℝ) (lo hi : ℕ) (vals : List ℝ) :
    Fin n → ℝ :=
  fun i => if lo ≤ i.val ∧ i.val < hi then vals.getD (i.val - lo) 0 else f i

/-- Model of np.random.uniform(low, high) on arrays, by inverse transform:
the caller supplies the underlying unit draws u, and component i of the
result is low i + u i * (high i - low i). -/
noncomputable def npUniform (low high u : List ℝ) : List ℝ :=
  List.zipWith (fun p ui => p.1 + ui * (p.2 - p.1)) (low.zip high) u

/-- Joint-level simulator state.  The joint position vector qpos has the 28
entries of the literal init_angles vector the code feeds to set_state.  Its
layout, implied by the slices the code itself writes, is: seven arm hinge
coordinates (0 to 6), then three free-joint bodies each holding a 3-entry
position followed by a 4-entry quaternion: the puck (7 to 9 and 10 to 13),
the hand-goal marker (14 to 16 and 17 to 20) and the puck-goal marker
(21 to 23 and 24 to 27).  A hinge joint contributes one velocity dof and a
free joint six, so the joint velocity vector qvel has nv = 7 + 6 + 6 + 6 =
25 entries, in the dense mujoco dof layout: arm 0 to 6, puck 7 to 12,
hand-goal marker 13 to 18, puck-goal marker 19 to 24.  In particular qvel
is shorter than qpos, so the qpos-aligned qvel slices the Python code
writes cross body boundaries.  The state also carries the mocap actuator
target position and orientation. -/
structure MjState where
  qpos : Fin 28 → ℝ
  qvel : Fin 25 → ℝ
  mocap_pos : Fin 3 → ℝ
  mocap_quat : Fin 4 → ℝ

/-- Velocity-dof ownership derived from the joint layout: the puck free
joint owns qvel dofs 7 to 12. -/
def puckDofRange (k : ℕ) : Prop := 7 ≤ k ∧ k < 13

instance (k : ℕ) : Decidable (puckDofRange k) := by
  unfold puckDofRange
  infer_instance

/-- Velocity-dof ownership derived from the joint layout: the hand-goal
marker free joint owns qvel dofs 13 to 18. -/
def handGoalDofRange (k : ℕ) : Prop := 13 ≤ k ∧ k < 19

instance (k : ℕ) : Decidable (handGoalDofRange k) := by
  unfold handGoalDofRange
  infer_instance

/-- Derived body readings recomputed by the physics engine: world positions
and orientations (quaternions in mujoco order w, x, y, z) of the four named
bodies the adapter queries. -/
structure Readings where
  endeff_xpos : Fin 3 → ℝ
  handGoal_xpos : Fin 3 → ℝ
  puck_xpos : Fin 3 → ℝ
  puckGoal_xpos : Fin 3 → ℝ
  puck_xquat : Fin 4 → ℝ
  puckGoal_xquat : Fin 4 → ℝ

/-- Constructor configuration of SawyerPushAndReachTXYEnv.  Goal bounds and
fixed goals are lists because their lengths differ between the base class
defaults (three puck components) and the easy variant (two). -/
structure EnvConfig where
  pos_action_scale : ℝ
  randomize_goals : Bool
  init_block_low : List ℝ
  init_block_high : List ℝ
  puck_goal_low : List ℝ
  puck_goal_high : List ℝ
  hand_goal_low : List ℝ
  hand_goal_high : List ℝ
  fixed_puck_goal : List ℝ
  fixed_hand_goal : List ℝ
  mocap_low : Fin 3 → ℝ
  mocap_high : Fin 3 → ℝ
  force_puck_in_goal_space : Bool

/-- Environment state: the simulator handle plus the stored current goal
vector (the attribute named goal underscore xyxytheta in the source). -/
structure EnvState where
  sim : MjState
  goal : List ℝ

/-- Observation dictionary returned by the private get-obs method. -/
structure ObsDict where
  observation : List ℝ
  state_observation : List ℝ
  desired_goal : List ℝ
  state_desired_goal : List ℝ
  achieved_goal : List ℝ
  state_achieved_goal : List ℝ

/-- Diagnostics record built at the end of step.  The success entry is the
Python float conversion of a boolean, hence 1 or 0. -/
structure StepDiag where
  hand_distance : ℝ
  puck_distance : ℝ
  puck_xy_distance : ℝ
  puck_theta_distance : ℝ
  touch_distance : ℝ
  success : ℝ

/-- Default constructor arguments of SawyerPushAndReachTXYEnv. -/
noncomputable def defaultTCfg : EnvConfig where
  pos_action_scale := 2 / 100
  randomize_goals := true
  init_block_low := [-0.05, 0.55, 0]
  init_block_high := [0.05, 0.65, 0]
  puck_goal_low := [-0.05, 0.55, -0.2]
  puck_goal_high := [0.05, 0.65, 0.2]
  hand_goal_low := [-0.05, 0.55]
  hand_goal_high := [0.05, 0.65]
  fixed_puck_goal := [0.05, 0.6, 0]
  fixed_hand_goal := [-0.05, 0.6, 0]
  mocap_low := ![-0.1, 0.5, 0.0]
  mocap_high := ![0.1, 0.7, 0.5]
  force_puck_in_goal_space := false

/-- Class constant INIT_HAND_POS. -/
noncomputable def INIT_HAND_POS : Fin 3 → ℝ := ![0, 0.4, 0.02]

/-- Literal 28-entry canonical joint configuration (the active init_angles
property). -/
noncomputable def init_angles : List ℝ :=
  [1.78026069, -0.684415781, -0.154549231,
   2.30672090, 1.93111471, 0.127854012,
   1.49353907, 1.80196716e-3, 0.740415706,
   2.09895360e-2, 1, 0,
   0, 0, -3.62518873e-2,
   0.613435141, 2.09686080e-2, 0.707106781,
   1.48979724e-14, 0.707106781, -1.48999170e-14,
   0, 0.6, 0.02,
   1, 0, 1, 0]

/-- Accessor get_endeff_pos: world position of the leftclaw body. -/
noncomputable def get_endeff_pos (r : Readings) : Fin 3 → ℝ := r.endeff_xpos

/-- Accessor get_hand_goal_pos: world position of the hand-goal body. -/
noncomputable def get_hand_goal_pos (r : Readings) : Fin 3 → ℝ := r.handGoal_xpos

/-- Accessor get_puck_xytheta: planar position of the puck body together
with the angle recovered from its quaternion via quat_to_theta, with the
mujoco quaternion (w, x, y, z) unpacked and passed as x, y, z, w. -/
noncomputable def get_puck_xytheta (r : Readings) : Fin 3 → ℝ :=
  ![r.puck_xpos 0, r.puck_xpos 1,
    quat_to_theta (r.puck_xquat 1) (r.puck_xquat 2) (r.puck_xquat 3)
      (r.puck_xquat 0)]

/-- Accessor get_puck_goal_xytheta, same shape for the puck-goal body. -/
noncomputable def get_puck_goal_xytheta (r : Readings) : Fin 3 → ℝ :=
  ![r.puckGoal_xpos 0, r.puckGoal_xpos 1,
    quat_to_theta (r.puckGoal_xquat 1) (r.puckGoal_xquat 2)
      (r.puckGoal_xquat 3) (r.puckGoal_xquat 0)]

/-- Mutator set_puck_xytheta: writes qpos indices 7 to 9 with the puck
position (x, y and the fixed height 0.02), indices 10 to 13 with the
quaternion of theta in the order returned by theta_to_quat, and zeroes the
velocity entries at indices 7 to 13, leaving all other entries alone.
The velocity slices are the qpos-aligned ones the Python code writes
(qvel[7:10] and qvel[10:14]); since the real dof layout gives the puck only
dofs 7 to 12, the last zeroed entry, qvel 13, belongs to the hand-goal
marker, not to the puck. -/
noncomputable def set_puck_xytheta (s : MjState) (p : Fin 3 → ℝ) : MjState :=
  let q := theta_to_quat (p 2)
  { s with
    qpos := sliceSet (sliceSet s.qpos 7 10 [p 0, p 1, 0.02]) 10 14
      [q.1, q.2.1, q.2.2.1, q.2.2.2],
    qvel := sliceSet (sliceSet s.qvel 7 10 [0, 0, 0]) 10 14 [0, 0, 0, 0] }

/-- Simulator-side part of set_goal_xyxytheta: writes the hand-goal marker
slice (qpos 14 to 16, height 0.02, velocities zeroed), the puck-goal
marker planar slice (qpos 21 to 23, height 0.02, velocities zeroed), and
the puck-goal quaternion slice (qpos 24 to 27) computed from the last goal
component.  The goal attribute update done by the same Python method is
performed by the caller in this embedding. -/
noncomputable def set_goal_xyxytheta_sim (s : MjState) (g : List ℝ) : MjState :=
  let hand_goal := g.take 2
  let puck_xy_goal := (g.drop 2).take 2
  let puck_theta_goal := g.getLastD 0
  let q := theta_to_quat puck_theta_goal
  { s with
    qpos := sliceSet (sliceSet (sliceSet s.qpos 14 17 (hand_goal ++ [0.02]))
      21 24 (puck_xy_goal ++ [0.02])) 24 28 [q.1, q.2.1, q.2.2.1, q.2.2.2],
    qvel := sliceSet (sliceSet s.qvel 14 17 [0, 0, 0]) 21 24 [0, 0, 0] }

/-- Goal sampler sample_goal_xyxytheta.  With randomization on it draws the
hand block uniformly inside the hand bounds and the puck block uniformly
inside the puck bounds from two independent draw vectors; otherwise it
returns the concatenation of the two fixed goals. -/
noncomputable def sample_goal_xyxytheta (cfg : EnvConfig)
    (uHand uPuck : List ℝ) : List ℝ :=
  if cfg.randomize_goals then
    npUniform cfg.hand_goal_low cfg.hand_goal_high uHand ++
      npUniform cfg.puck_goal_low cfg.puck_goal_high uPuck
  else
    cfg.fixed_hand_goal ++ cfg.fixed_puck_goal

/-- Initial puck pose sampler of the easy variant (the only variant that
defines one; the base class reset calls it abstractly): fixed planar
position (0, 0.6) and an angle (u - 0.5) * pi from a unit draw u. -/
noncomputable def sample_puck_xytheta (u : ℝ) : Fin 3 → ℝ :=
  ![0, 0.6, (u - 0.5) * Real.pi]

/-- Mutator mocap_set_action: adds the delta to the current mocap position,
clips the result componentwise into the fixed box given by mocap_low and
mocap_high, writes it back and resets the mocap quaternion. -/
noncomputable def mocap_set_action (cfg : EnvConfig) (s : MjState)
    (action : Fin 3 → ℝ) : MjState :=
  { s with
    mocap_pos := fun i =>
      npClip (s.mocap_pos i + action i) (cfg.mocap_low i) (cfg.mocap_high i),
    mocap_quat := ![1, 0, 1, 0] }

/-- Action-processing stage of step: clip the 2-d action into the unit
box, append the vertical correction 0.06 minus the current mocap height,
scale by pos_action_scale and apply via mocap_set_action. -/
noncomputable def stepMocapStage (cfg : EnvConfig) (s : MjState)
    (a : Fin 2 → ℝ) : MjState :=
  let ac := fun i : Fin 2 => npClip (a i) (-1) 1
  let mocap_delta_z := 0.06 - s.mocap_pos 2
  let new_mocap_action : Fin 3 → ℝ := ![ac 0, ac 1, mocap_delta_z]
  mocap_set_action cfg s (fun i => new_mocap_action i * cfg.pos_action_scale)

/-- Optional puck containment stage of step: when force_puck_in_goal_space
is set, read the puck pose, clip it into the puck goal bounds (numpy
broadcasting requires the bounds to have three entries here) and teleport
the puck there when the clip changed anything. -/
noncomputable def stepForceStage (cfg : EnvConfig) (fwd : MjState → Readings)
    (s : MjState) : MjState :=
  if cfg.force_puck_in_goal_space then
    let puck_pos := get_puck_xytheta (fwd s)
    let clipped := fun i : Fin 3 =>
      npClip (puck_pos i) (cfg.puck_goal_low.getD i 0) (cfg.puck_goal_high.getD i 0)
    if ∀ i, clipped i = puck_pos i then s else set_puck_xytheta s clipped
  else s

/-- Observation construction (the private get-obs method): end-effector
planar position concatenated with the puck pose, copied into the four
observation slots, and the stored goal copied into the two desired-goal
slots. -/
noncomputable def get_obs (r : Readings) (g : List ℝ) : ObsDict :=
  let e := [get_endeff_pos r 0, get_endeff_pos r 1]
  let b := [get_puck_xytheta r 0, get_puck_xytheta r 1, get_puck_xytheta r 2]
  let x := e ++ b
  { observation := x
    state_observation := x
    desired_goal := g
    state_desired_goal := g
    achieved_goal := x
    state_achieved_goal := x }

set_option linter.unusedVariables false in
/-- Reward compute_reward: minus the Euclidean norm of the difference of
the achieved and desired state goals; the action argument is unused. -/
noncomputable def compute_reward (action : Fin 2 → ℝ) (obs : ObsDict) : ℝ :=
  -npNormList (listSub obs.state_achieved_goal obs.state_desired_goal)

/-- Diagnostics computed at the end of step from the post-simulation
readings. -/
noncomputable def stepInfo (r : Readings) : StepDiag :=
  let hand_distance :=
    npNorm (fun i : Fin 3 => get_hand_goal_pos r i - get_endeff_pos r i)
  let puck_distance :=
    npNorm (fun i : Fin 3 => get_puck_goal_xytheta r i - get_puck_xytheta r i)
  let puck_xy_distance :=
    npNorm ![get_puck_goal_xytheta r 0 - get_puck_xytheta r 0,
             get_puck_goal_xytheta r 1 - get_puck_xytheta r 1]
  let puck_theta_distance := |get_puck_goal_xytheta r 2 - get_puck_xytheta r 2|
  let touch_distance :=
    npNorm (fun i : Fin 3 => get_endeff_pos r i - get_puck_xytheta r i)
  { hand_distance := hand_distance
    puck_distance := puck_distance
    puck_xy_distance := puck_xy_distance
    puck_theta_distance := puck_theta_distance
    touch_distance := touch_distance
    success := if hand_distance + puck_distance < 0.06 then 1 else 0 }

/-- Step.  The opaque parameter physics is do_simulation (advancing the
engine with zero torques for frame_skip sub-steps) and fwd recomputes the
derived body readings from a joint state.  Returns the new environment
state together with the observation, reward, the always-false done flag
and the diagnostics record. -/
noncomputable def stepEnv (cfg : EnvConfig) (physics : MjState → MjState)
    (fwd : MjState → Readings) (e : EnvState) (a : Fin 2 → ℝ) :
    EnvState × ObsDict × ℝ × Bool × StepDiag :=
  let ac := fun i : Fin 2 => npClip (a i) (-1) 1
  let s2 := stepForceStage cfg fwd (stepMocapStage cfg e.sim a)
  let s3 := physics s2
  let obs := get_obs (fwd s3) e.goal
  let reward := compute_reward ac obs
  ({ sim := s3, goal := e.goal }, obs, reward, false, stepInfo (fwd s3))

/-- First stage of reset: the set_state call.  The code copies the current
velocity vector and passes it back to set_state together with the literal
init_angles position vector, so positions are restored and velocities are
passed through unchanged. -/
noncomputable def reset_set_state (s : MjState) : MjState :=
  { s with qpos := fun i => init_angles.getD i.val 0, qvel := s.qvel }

/-- Reset: restore init_angles via set_state (velocities passed through),
re-center the mocap target at INIT_HAND_POS, sample and install a fresh
goal, place the puck at the sampled initial pose, and return the resulting
observation.  The weld reset touches only engine-internal equality
constraint data, which is outside this state model. -/
noncomputable def resetEnv (cfg : EnvConfig) (fwd : MjState → Readings)
    (e : EnvState) (uHand uPuck : List ℝ) (uTheta : ℝ) :
    EnvState × ObsDict :=
  let s1 := reset_set_state e.sim
  let s2 := { s1 with mocap_pos := INIT_HAND_POS, mocap_quat := ![1, 0, 1, 0] }
  let g := sample_goal_xyxytheta cfg uHand uPuck
  let s3 := set_goal_xyxytheta_sim s2 g
  let s4 := set_puck_xytheta s3 (sample_puck_xytheta uTheta)
  ({ sim := s4, goal := g }, get_obs (fwd s4) g)

/-- Mutator set_hand_xy: ten times in a row, write the raw target (x, y,
fixed height 0.02) to the mocap position, reset the mocap quaternion and
advance the physics. -/
noncomputable def set_hand_xy (physics : MjState → MjState) (s : MjState)
    (xy : Fin 2 → ℝ) : MjState :=
  (fun st => physics
    { st with mocap_pos := ![xy 0, xy 1, 0.02], mocap_quat := ![1, 0, 1, 0] })^[10] s

/-- Concrete simulator state used by witnesses: ascending joint positions,
all joint velocities equal to 1, mocap at height 0.1. -/
noncomputable def mj0 : MjState where
  qpos := fun i => (i.val : ℝ)
  qvel := fun _ => 1
  mocap_pos := ![0, 0.6, 0.1]
  mocap_quat := ![1, 0, 1, 0]

/-- Concrete observation dictionary used by the reward witness. -/
noncomputable def obs0 : ObsDict where
  observation := []
  state_observation := []
  desired_goal := [3, 4]
  state_desired_goal := [3, 4]
  achieved_goal := [1, 2]
  state_achieved_goal := [1, 2]

/-- Concrete readings with every body at the origin and identity
orientations. -/
noncomputable def rZero : Readings where
  endeff_xpos := ![0, 0, 0]
  handGoal_xpos := ![0, 0, 0]
  puck_xpos := ![0, 0, 0]
  puckGoal_xpos := ![0, 0, 0]
  puck_xquat := ![1, 0, 0, 0]
  puckGoal_xquat := ![1, 0, 0, 0]

lemma sumSq_nonneg (v : List ℝ) : 0 ≤ (v.map (fun t => t ^ 2)).sum := by
  induction v with
  | nil => simp
  | cons x xs ih =>
    simp only [List.map_cons, List.sum_cons]
    exact add_nonneg (sq_nonneg x) ih

lemma listSub_sq_sum_eq_zero_iff :
    ∀ xs ys : List ℝ, xs.length = ys.length →
      ((((listSub xs ys).map (fun t => t ^ 2)).sum = 0) ↔ xs = ys) := by
  intro xs
  induction xs with
  | nil =>
    intro ys h
    cases ys with
    | nil => simp [listSub]
    | cons y ys => simp at h
  | cons x xs ih =>
    intro ys h
    cases ys with
    | nil => simp at h
    | cons y ys =>
      have hlen : xs.length = ys.length := by simpa using h
      have hcons : listSub (x :: xs) (y :: ys) = (x - y) :: listSub xs ys := rfl
      rw [hcons, List.map_cons, List.sum_cons,
        add_eq_zero_iff_of_nonneg (sq_nonneg _) (sumSq_nonneg (listSub xs ys))]
      constructor
      · rintro ⟨h2, h3⟩
        have hx : x = y := sub_eq_zero.mp (sq_eq_zero_iff.mp h2)
        have hxs : xs = ys := (ih ys hlen).mp h3
        rw [hx, hxs]
      · intro heq
        injection heq with h1 h2
        subst h1; subst h2
        exact ⟨by simp, (ih xs rfl).mpr rfl⟩

/-- C1: compute_reward returns minus the Euclidean norm of the difference
between the state achieved goal and the state desired goal, independently
of the action; consequently it is never positive and it vanishes exactly
when the two goal vectors coincide (for observation dictionaries whose two
state goal entries have equal length, as numpy shape rules require). -/
theorem C1_compute_reward_negdist (a a' : Fin 2 → ℝ) (obs : ObsDict)
    (hlen : obs.state_achieved_goal.length = obs.state_desired_goal.length) :
    compute_reward a obs
        = -npNormList (listSub obs.state_achieved_goal obs.state_desired_goal)
      ∧ compute_reward a obs = compute_reward a' obs
      ∧ compute_reward a obs ≤ 0
      ∧ (compute_reward a obs = 0
          ↔ obs.state_achieved_goal = obs.state_desired_goal) := by
  refine ⟨rfl, rfl, ?_, ?_⟩
  · unfold compute_reward npNormList
    exact neg_nonpos.mpr (Real.sqrt_nonneg _)
  · unfold compute_reward npNormList
    rw [neg_eq_zero, Real.sqrt_eq_zero (sumSq_nonneg _)]
    exact listSub_sq_sum_eq_zero_iff _ _ hlen

/-- Witness for C1 at a concrete observation with equal-length goals. -/
theorem C1_compute_reward_negdist_witness :
    obs0.state_achieved_goal.length = obs0.state_desired_goal.length
      ∧ compute_reward (fun _ => 0) obs0 ≤ 0 :=
  ⟨rfl, (C1_compute_reward_negdist (fun _ => 0) (fun _ => 0) obs0 rfl).2.2.1⟩

lemma sliceSet_frame {n : ℕ} (f : Fin n → ℝ) (lo hi : ℕ) (vals : List ℝ)
    (i : Fin n) (h : ¬(lo ≤ i.val ∧ i.val < hi)) :
    sliceSet f lo hi vals i = f i := by
  simp [sliceSet, h]

lemma getD_zeros3 : ∀ k : ℕ, List.getD [(0 : ℝ), 0, 0] k 0 = 0 := by
  intro k
  match k with
  | 0 => rfl
  | 1 => rfl
  | 2 => rfl
  | n + 3 => rfl

lemma getD_zeros4 : ∀ k : ℕ, List.getD [(0 : ℝ), 0, 0, 0] k 0 = 0 := by
  intro k
  match k with
  | 0 => rfl
  | 1 => rfl
  | 2 => rfl
  | 3 => rfl
  | n + 4 => rfl

lemma set_puck_xytheta_qpos_frame (s : MjState) (p : Fin 3 → ℝ) (i : Fin 28)
    (h : i.val < 7 ∨ 14 ≤ i.val) :
    (set_puck_xytheta s p).qpos i = s.qpos i := by
  show sliceSet (sliceSet s.qpos 7 10 _) 10 14 _ i = s.qpos i
  rw [sliceSet_frame _ _ _ _ _ (by omega), sliceSet_frame _ _ _ _ _ (by omega)]

lemma set_puck_xytheta_qvel_frame (s : MjState) (p : Fin 3 → ℝ) (i : Fin 25)
    (h : i.val < 7 ∨ 14 ≤ i.val) :
    (set_puck_xytheta s p).qvel i = s.qvel i := by
  show sliceSet (sliceSet s.qvel 7 10 _) 10 14 _ i = s.qvel i
  rw [sliceSet_frame _ _ _ _ _ (by omega), sliceSet_frame _ _ _ _ _ (by omega)]

lemma set_puck_xytheta_qvel_zero (s : MjState) (p : Fin 3 → ℝ) (i : Fin 25)
    (h1 : 7 ≤ i.val) (h2 : i.val < 14) :
    (set_puck_xytheta s p).qvel i = 0 := by
  show sliceSet (sliceSet s.qvel 7 10 [0, 0, 0]) 10 14 [0, 0, 0, 0] i = 0
  by_cases h10 : 10 ≤ i.val
  · unfold sliceSet
    rw [if_pos ⟨h10, h2⟩]
    exact getD_zeros4 _
  · rw [sliceSet_frame _ _ _ _ _ (by omega)]
    unfold sliceSet
    rw [if_pos ⟨h1, by omega⟩]
    exact getD_zeros3 _

lemma set_goal_xyxytheta_sim_qpos_frame (s : MjState) (g : List ℝ)
    (i : Fin 28) (h : i.val < 14) :
    (set_goal_xyxytheta_sim s g).qpos i = s.qpos i := by
  show sliceSet (sliceSet (sliceSet s.qpos 14 17 _) 21 24 _) 24 28 _ i = s.qpos i
  rw [sliceSet_frame _ _ _ _ _ (by omega), sliceSet_frame _ _ _ _ _ (by omega),
    sliceSet_frame _ _ _ _ _ (by omega)]

/-- C5 amended: set_puck_xytheta writes the puck qpos block as claimed
(position (x, y, 0.02) at 7 to 9, quaternion of theta at 10 to 13) and
zeroes qvel entries 7 to 13 via the qpos-aligned slices qvel[7:10] and
qvel[10:14].  Dofs 7 to 12 are the puck velocities, but the last zeroed
entry, qvel 13, is the first velocity dof of the hand-goal marker, so the
call does change one velocity entry belonging to another body.  All qpos
entries outside 7 to 13 and all qvel entries outside 7 to 13 are
unchanged. -/
theorem C5_set_puck_effect (s : MjState) (p : Fin 3 → ℝ) :
    (set_puck_xytheta s p).qpos 7 = p 0
    ∧ (set_puck_xytheta s p).qpos 8 = p 1
    ∧ (set_puck_xytheta s p).qpos 9 = 0.02
    ∧ (set_puck_xytheta s p).qpos 10 = (theta_to_quat (p 2)).1
    ∧ (set_puck_xytheta s p).qpos 11 = (theta_to_quat (p 2)).2.1
    ∧ (set_puck_xytheta s p).qpos 12 = (theta_to_quat (p 2)).2.2.1
    ∧ (set_puck_xytheta s p).qpos 13 = (theta_to_quat (p 2)).2.2.2
    ∧ (∀ i : Fin 25, 7 ≤ i.val → i.val < 14 → (set_puck_xytheta s p).qvel i = 0)
    ∧ (∀ i : Fin 25, puckDofRange i.val → (set_puck_xytheta s p).qvel i = 0)
    ∧ (set_puck_xytheta s p).qvel 13 = 0
    ∧ handGoalDofRange 13
    ∧ ¬ puckDofRange 13
    ∧ (∀ i : Fin 28, i.val < 7 ∨ 14 ≤ i.val →
        (set_puck_xytheta s p).qpos i = s.qpos i)
    ∧ (∀ i : Fin 25, i.val < 7 ∨ 14 ≤ i.val →
        (set_puck_xytheta s p).qvel i = s.qvel i) := by
  refine ⟨rfl, rfl, rfl, rfl, rfl, rfl, rfl,
    fun i h1 h2 => set_puck_xytheta_qvel_zero s p i h1 h2,
    fun i h => set_puck_xytheta_qvel_zero s p i h.1
      (lt_trans h.2 (by norm_num)),
    set_puck_xytheta_qvel_zero s p 13 (by decide) (by decide),
    by decide, by decide,
    fun i h => set_puck_xytheta_qpos_frame s p i h,
    fun i h => set_puck_xytheta_qvel_frame s p i h⟩

/-- Witness for C5 amended: concrete pose written into the concrete state
mj0, with a zeroed puck velocity dof, an untouched arm position entry and
an untouched hand-goal velocity dof beyond the slice. -/
theorem C5_set_puck_effect_witness :
    (7 : ℕ) ≤ (7 : Fin 25).val ∧ (7 : Fin 25).val < 14
    ∧ (set_puck_xytheta mj0 ![1, 2, 0]).qvel 7 = 0
    ∧ (set_puck_xytheta mj0 ![1, 2, 0]).qpos 0 = mj0.qpos 0
    ∧ (set_puck_xytheta mj0 ![1, 2, 0]).qvel 14 = mj0.qvel 14 :=
  ⟨by decide, by decide,
   (C5_set_puck_effect mj0 ![1, 2, 0]).2.2.2.2.2.2.2.1 7 (by decide) (by decide),
   (C5_set_puck_effect mj0 ![1, 2, 0]).2.2.2.2.2.2.2.2.2.2.2.2.1 0
     (Or.inl (by decide)),
   (C5_set_puck_effect mj0 ![1, 2, 0]).2.2.2.2.2.2.2.2.2.2.2.2.2 14
     (Or.inr (by decide))⟩

/-- C5 counterexample: the claim that set_puck_xytheta leaves every
position and velocity entry of every other body unchanged is false.  From
the concrete state mj0 whose velocities are all 1, the call zeroes qvel 13,
a velocity dof owned by the hand-goal marker and not by the puck, changing
it from 1 to 0. -/
theorem C5_counterexample_other_body_velocity :
    handGoalDofRange 13
    ∧ ¬ puckDofRange 13
    ∧ mj0.qvel 13 = 1
    ∧ (set_puck_xytheta mj0 ![1, 2, 0]).qvel 13 = 0
    ∧ (0 : ℝ) ≠ 1 :=
  ⟨by decide, by decide, rfl, rfl, by norm_num⟩

/-- C4 amended: the set_state call inside reset writes the literal
init_angles vector into the joint positions but passes the pre-reset
velocity vector through unchanged (it does not zero it); the arm entries
(indices below 7) of the final reset state still hold the init_angles
values because the later goal and puck writes only touch indices 7 and
above. -/
theorem C4_reset_set_state_passthrough (s : MjState) :
    (∀ i : Fin 28, (reset_set_state s).qpos i = init_angles.getD i.val 0)
    ∧ (∀ i : Fin 25, (reset_set_state s).qvel i = s.qvel i)
    ∧ ∀ (cfg : EnvConfig) (fwd : MjState → Readings) (e : EnvState)
        (uH uP : List ℝ) (uT : ℝ) (j : Fin 7),
        (resetEnv cfg fwd e uH uP uT).1.sim.qpos (j.castLE (by norm_num))
          = init_angles.getD j.val 0 := by
  refine ⟨fun i => rfl, fun i => rfl, ?_⟩
  · intro cfg fwd e uH uP uT j
    have hj : (j.castLE (by norm_num : (7 : ℕ) ≤ 28)).val < 7 := j.isLt
    show (set_puck_xytheta (set_goal_xyxytheta_sim _ _) _).qpos _ = _
    rw [set_puck_xytheta_qpos_frame _ _ _ (Or.inl hj),
      set_goal_xyxytheta_sim_qpos_frame _ _ _ (by omega)]
    rfl

/-- Witness for C4 amended at a concrete state and configuration. -/
theorem C4_reset_set_state_passthrough_witness :
    (reset_set_state mj0).qvel 3 = mj0.qvel 3
      ∧ (resetEnv defaultTCfg (fun _ => rZero) { sim := mj0, goal := [] }
          [] [] 0).1.sim.qpos ((0 : Fin 7).castLE (by norm_num))
          = init_angles.getD 0 0 :=
  ⟨(C4_reset_set_state_passthrough mj0).2.1 3,
   (C4_reset_set_state_passthrough mj0).2.2 defaultTCfg (fun _ => rZero)
     { sim := mj0, goal := [] } [] [] 0 0⟩

/-- C4 counterexample: starting reset from the concrete state mj0 whose
joint velocities are all 1, the joint velocity at index 7 immediately after
the set_state call inside reset is still 1, not 0, so reset does not zero
the velocities at that point. -/
theorem C4_counterexample_velocity_not_zeroed :
    (reset_set_state mj0).qvel 7 = 1 ∧ (1 : ℝ) ≠ 0 :=
  ⟨rfl, by norm_num⟩

/-- C6 amended: with randomization enabled and the default base-class
bounds (whose puck block has three components, the third being the angle
bounds -0.2 and 0.2), sample_goal_xyxytheta draws every component,
including the puck angle: the last entry of the returned goal is
-0.2 + u4 * 0.4 where u4 is the fifth underlying unit draw.  The hand
block and the puck block come from the two independent draw vectors. -/
theorem C6_sampler_draws_angle (u0 u1 u2 u3 u4 : ℝ) :
    sample_goal_xyxytheta defaultTCfg [u0, u1] [u2, u3, u4]
      = [-0.05 + u0 * 0.1, 0.55 + u1 * 0.1,
         -0.05 + u2 * 0.1, 0.55 + u3 * 0.1, -0.2 + u4 * 0.4] := by
  show npUniform defaultTCfg.hand_goal_low defaultTCfg.hand_goal_high [u0, u1] ++
      npUniform defaultTCfg.puck_goal_low defaultTCfg.puck_goal_high [u2, u3, u4] = _
  show npUniform [-0.05, 0.55] [0.05, 0.65] [u0, u1] ++
      npUniform [-0.05, 0.55, -0.2] [0.05, 0.65, 0.2] [u2, u3, u4] = _
  simp only [npUniform, List.zip_cons_cons, List.zip_nil_right, List.zip_nil_left,
    List.zipWith_cons_cons, List.zipWith_nil_right, List.zipWith_nil_left,
    List.cons_append, List.nil_append]
  norm_num

/-- C6 counterexample: the claim that the base goal sampler does not draw
the puck angle at random is false with the default bounds: two runs that
differ only in the underlying draw for the third puck component return
different angle components (index 4 of the goal vector). -/
theorem C6_counterexample_angle_sampled :
    (sample_goal_xyxytheta defaultTCfg [0, 0] [0, 0, 0]).getD 4 99
      ≠ (sample_goal_xyxytheta defaultTCfg [0, 0] [0, 0, 1]).getD 4 99 := by
  have h0 : (sample_goal_xyxytheta defaultTCfg [0, 0] [0, 0, 0]).getD 4 99
      = -0.2 + 0 * (0.2 - -0.2) := rfl
  have h1 : (sample_goal_xyxytheta defaultTCfg [0, 0] [0, 0, 1]).getD 4 99
      = -0.2 + 1 * (0.2 - -0.2) := rfl
  rw [h0, h1]
  norm_num

/-- Bounds of the default mocap box are ordered componentwise. -/
lemma defaultTCfg_mocap_bounds :
    ∀ i, defaultTCfg.mocap_low i ≤ defaultTCfg.mocap_high i := by
  intro i
  fin_cases i <;> norm_num [defaultTCfg]

/-- C7 amended: only mocap_set_action (the path used by step) clips the
commanded mocap position into the box given by mocap_low and mocap_high
(whenever the box is nonempty componentwise).  The other two operations
that command the actuator write their targets verbatim: set_hand_xy writes
the requested planar target at height 0.02 unclipped, and reset writes the
fixed INIT_HAND_POS unclipped; with the default configuration that point
lies outside the box, since its y component 0.4 is below the lower bound
0.5. -/
theorem C7_mocap_clip_only_in_step :
    (∀ (cfg : EnvConfig) (s : MjState) (d : Fin 3 → ℝ),
        (∀ i, cfg.mocap_low i ≤ cfg.mocap_high i) →
        ∀ i, cfg.mocap_low i ≤ (mocap_set_action cfg s d).mocap_pos i
          ∧ (mocap_set_action cfg s d).mocap_pos i ≤ cfg.mocap_high i)
    ∧ (∀ (s : MjState) (xy : Fin 2 → ℝ),
        (set_hand_xy (fun t => t) s xy).mocap_pos = ![xy 0, xy 1, 0.02])
    ∧ (∀ (cfg : EnvConfig) (fwd : MjState → Readings) (e : EnvState)
        (uH uP : List ℝ) (uT : ℝ),
        (resetEnv cfg fwd e uH uP uT).1.sim.mocap_pos = INIT_HAND_POS)
    ∧ INIT_HAND_POS 1 = 0.4 ∧ defaultTCfg.mocap_low 1 = 0.5
    ∧ (0.4 : ℝ) < 0.5 := by
  refine ⟨?_, ?_, ?_, rfl, rfl, by norm_num⟩
  · intro cfg s d h i
    exact ⟨le_min (h i) (le_max_right _ _), min_le_left _ _⟩
  · intro s xy
    rfl
  · intro cfg fwd e uH uP uT
    rfl

/-- Witness for C7 amended: the clip bound applied at the default box. -/
theorem C7_mocap_clip_only_in_step_witness :
    defaultTCfg.mocap_low 2
      ≤ (mocap_set_action defaultTCfg mj0 ![0, 0, 0]).mocap_pos 2 :=
  (C7_mocap_clip_only_in_step.1 defaultTCfg mj0 ![0, 0, 0]
    defaultTCfg_mocap_bounds 2).1

/-- C7 counterexample: a concrete reset call writes the mocap position
INIT_HAND_POS = (0, 0.4, 0.02), whose y component 0.4 is below the lower
bound 0.5 of the default mocap box, so the written actuator target is not
clipped into the box. -/
theorem C7_counterexample_reset_outside_box :
    (resetEnv defaultTCfg (fun _ => rZero) { sim := mj0, goal := [] }
        [] [] 0).1.sim.mocap_pos 1 = 0.4
      ∧ ¬ (defaultTCfg.mocap_low 1
            ≤ (resetEnv defaultTCfg (fun _ => rZero) { sim := mj0, goal := [] }
                [] [] 0).1.sim.mocap_pos 1) := by
  have h : (resetEnv defaultTCfg (fun _ => rZero) { sim := mj0, goal := [] }
      [] [] 0).1.sim.mocap_pos 1 = 0.4 := rfl
  refine ⟨h, ?_⟩
  rw [h, show defaultTCfg.mocap_low 1 = 0.5 from rfl]
  norm_num

lemma stepForceStage_mocap (cfg : EnvConfig) (fwd : MjState → Readings)
    (s : MjState) : (stepForceStage cfg fwd s).mocap_pos = s.mocap_pos := by
  unfold stepForceStage
  split_ifs with h1
  · dsimp only
    split_ifs with h2
    · rfl
    · rfl
  · rfl

/-- C8: in every step the vertical component of the unscaled actuation
command is 0.06 minus the current mocap height, so the new height is the
clipped value of z + (0.06 - z) * pos_action_scale, independently of the
horizontal action; the physics advance does not move the mocap target, so
this is also the height after the full step.  When the updated target is
inside the box and the correction 0.06 - z is nonzero, the correction is
multiplied by the factor 1 - pos_action_scale, so with the default scale
in (0, 1) its magnitude strictly shrinks toward 0 on every such step. -/
theorem C8_vertical_correction :
    (∀ (cfg : EnvConfig) (s : MjState) (a : Fin 2 → ℝ),
        (stepMocapStage cfg s a).mocap_pos 2
          = npClip (s.mocap_pos 2 + (0.06 - s.mocap_pos 2) * cfg.pos_action_scale)
              (cfg.mocap_low 2) (cfg.mocap_high 2))
    ∧ (∀ (cfg : EnvConfig) (physics : MjState → MjState)
        (fwd : MjState → Readings) (e : EnvState) (a : Fin 2 → ℝ),
        (∀ t, (physics t).mocap_pos = t.mocap_pos) →
        (stepEnv cfg physics fwd e a).1.sim.mocap_pos 2
          = (stepMocapStage cfg e.sim a).mocap_pos 2)
    ∧ (∀ (cfg : EnvConfig) (s : MjState) (a : Fin 2 → ℝ),
        0 < cfg.pos_action_scale → cfg.pos_action_scale < 1 →
        cfg.mocap_low 2
            ≤ s.mocap_pos 2 + (0.06 - s.mocap_pos 2) * cfg.pos_action_scale →
        s.mocap_pos 2 + (0.06 - s.mocap_pos 2) * cfg.pos_action_scale
            ≤ cfg.mocap_high 2 →
        0.06 - (stepMocapStage cfg s a).mocap_pos 2
            = (1 - cfg.pos_action_scale) * (0.06 - s.mocap_pos 2)
          ∧ (0.06 - s.mocap_pos 2 ≠ 0 →
            |0.06 - (stepMocapStage cfg s a).mocap_pos 2|
              < |0.06 - s.mocap_pos 2|)) := by
  have hstage : ∀ (cfg : EnvConfig) (s : MjState) (a : Fin 2 → ℝ),
      (stepMocapStage cfg s a).mocap_pos 2
        = npClip (s.mocap_pos 2 + (0.06 - s.mocap_pos 2) * cfg.pos_action_scale)
            (cfg.mocap_low 2) (cfg.mocap_high 2) := fun cfg s a => rfl
  refine ⟨hstage, ?_, ?_⟩
  · intro cfg physics fwd e a hphys
    show (physics (stepForceStage cfg fwd (stepMocapStage cfg e.sim a))).mocap_pos 2
        = (stepMocapStage cfg e.sim a).mocap_pos 2
    rw [hphys, stepForceStage_mocap]
  · intro cfg s a h0 h1 hlo hhi
    have hz : (stepMocapStage cfg s a).mocap_pos 2
        = s.mocap_pos 2 + (0.06 - s.mocap_pos 2) * cfg.pos_action_scale := by
      rw [hstage]
      unfold npClip
      rw [max_eq_left hlo, min_eq_right hhi]
    constructor
    · rw [hz]; ring
    · intro hc
      rw [hz, show 0.06 - (s.mocap_pos 2
          + (0.06 - s.mocap_pos 2) * cfg.pos_action_scale)
          = (1 - cfg.pos_action_scale) * (0.06 - s.mocap_pos 2) from by ring]
      rw [abs_mul, abs_of_pos (by linarith)]
      exact mul_lt_of_lt_one_left (abs_pos.mpr hc) (by linarith)

lemma c8_scale_pos : (0 : ℝ) < defaultTCfg.pos_action_scale := by
  rw [show defaultTCfg.pos_action_scale = 2 / 100 from rfl]; norm_num

lemma c8_scale_lt_one : defaultTCfg.pos_action_scale < 1 := by
  rw [show defaultTCfg.pos_action_scale = 2 / 100 from rfl]; norm_num

lemma c8_inbox_lo : defaultTCfg.mocap_low 2
    ≤ mj0.mocap_pos 2 + (0.06 - mj0.mocap_pos 2) * defaultTCfg.pos_action_scale := by
  rw [show defaultTCfg.mocap_low 2 = 0.0 from rfl, show mj0.mocap_pos 2 = 0.1 from rfl,
    show defaultTCfg.pos_action_scale = 2 / 100 from rfl]
  norm_num

lemma c8_inbox_hi : mj0.mocap_pos 2
      + (0.06 - mj0.mocap_pos 2) * defaultTCfg.pos_action_scale
    ≤ defaultTCfg.mocap_high 2 := by
  rw [show defaultTCfg.mocap_high 2 = 0.5 from rfl, show mj0.mocap_pos 2 = 0.1 from rfl,
    show defaultTCfg.pos_action_scale = 2 / 100 from rfl]
  norm_num

lemma c8_corr_ne : (0.06 : ℝ) - mj0.mocap_pos 2 ≠ 0 := by
  rw [show mj0.mocap_pos 2 = 0.1 from rfl]; norm_num

/-- Witness for C8 at the default configuration, zero action, and the
concrete state mj0 whose mocap height is 0.1. -/
theorem C8_vertical_correction_witness :
    (0 : ℝ) < defaultTCfg.pos_action_scale
      ∧ (0.06 : ℝ) - mj0.mocap_pos 2 ≠ 0
      ∧ |0.06 - (stepMocapStage defaultTCfg mj0 (fun _ => 0)).mocap_pos 2|
          < |0.06 - mj0.mocap_pos 2| :=
  ⟨c8_scale_pos, c8_corr_ne,
   (C8_vertical_correction.2.2 defaultTCfg mj0 (fun _ => 0) c8_scale_pos
     c8_scale_lt_one c8_inbox_lo c8_inbox_hi).2 c8_corr_ne⟩

/-- C9: with goal randomization disabled, every reset installs the same
desired goal, namely the concatenation of the fixed hand goal and the fixed
puck goal, in both the desired_goal and state_desired_goal slots of the
returned observation, for any starting state, draws, and physics. -/
theorem C9_reset_fixed_goal_deterministic (cfg : EnvConfig)
    (fwd fwd' : MjState → Readings) (e e' : EnvState)
    (uH uP uH' uP' : List ℝ) (uT uT' : ℝ)
    (hrand : cfg.randomize_goals = false) :
    (resetEnv cfg fwd e uH uP uT).2.desired_goal
        = cfg.fixed_hand_goal ++ cfg.fixed_puck_goal
      ∧ (resetEnv cfg fwd e uH uP uT).2.state_desired_goal
        = cfg.fixed_hand_goal ++ cfg.fixed_puck_goal
      ∧ (resetEnv cfg fwd e uH uP uT).2.desired_goal
        = (resetEnv cfg fwd' e' uH' uP' uT').2.desired_goal
      ∧ (resetEnv cfg fwd e uH uP uT).2.state_desired_goal
        = (resetEnv cfg fwd' e' uH' uP' uT').2.state_desired_goal := by
  have hg : ∀ u1 u2 : List ℝ, sample_goal_xyxytheta cfg u1 u2
      = cfg.fixed_hand_goal ++ cfg.fixed_puck_goal := by
    intro u1 u2
    unfold sample_goal_xyxytheta
    rw [hrand]
    rfl
  have h1 : (resetEnv cfg fwd e uH uP uT).2.desired_goal
      = sample_goal_xyxytheta cfg uH uP := rfl
  have h2 : (resetEnv cfg fwd e uH uP uT).2.state_desired_goal
      = sample_goal_xyxytheta cfg uH uP := rfl
  have h3 : (resetEnv cfg fwd' e' uH' uP' uT').2.desired_goal
      = sample_goal_xyxytheta cfg uH' uP' := rfl
  have h4 : (resetEnv cfg fwd' e' uH' uP' uT').2.state_desired_goal
      = sample_goal_xyxytheta cfg uH' uP' := rfl
  rw [h1, h2, h3, h4, hg uH uP, hg uH' uP']
  exact ⟨rfl, rfl, rfl, rfl⟩

/-- Configuration of the C9 scenario: default arguments except that goal
randomization is off, so the fixed goals (-0.05, 0.6, 0) for the hand and
(0.05, 0.6, 0) for the puck are used. -/
noncomputable def fixedGoalCfg : EnvConfig :=
  { defaultTCfg with randomize_goals := false }

/-- Concrete post-simulation readings in which the hand-goal marker is
0.059 away from the end-effector along x and the puck sits exactly on its
goal, so the two diagnostic distances sum to 0.059. -/
noncomputable def r059 : Readings where
  endeff_xpos := ![0, 0, 0]
  handGoal_xpos := ![0.059, 0, 0]
  puck_xpos := ![0, 0, 0]
  puckGoal_xpos := ![0, 0, 0]
  puck_xquat := ![1, 0, 0, 0]
  puckGoal_xquat := ![1, 0, 0, 0]

/-- Concrete readings as r059 but with hand distance 0.061. -/
noncomputable def r061 : Readings where
  endeff_xpos := ![0, 0, 0]
  handGoal_xpos := ![0.061, 0, 0]
  puck_xpos := ![0, 0, 0]
  puckGoal_xpos := ![0, 0, 0]
  puck_xquat := ![1, 0, 0, 0]
  puckGoal_xquat := ![1, 0, 0, 0]

/-- Concrete readings where every body is at the origin but the puck
quaternion (w, x, y, z) = (0, 0, 0, 1) encodes a half-turn about the
vertical axis, so the recovered puck angle is pi. -/
noncomputable def rC10 : Readings where
  endeff_xpos := ![0, 0, 0]
  handGoal_xpos := ![0, 0, 0]
  puck_xpos := ![0, 0, 0]
  puckGoal_xpos := ![0, 0, 0]
  puck_xquat := ![0, 0, 0, 1]
  puckGoal_xquat := ![1, 0, 0, 0]

lemma atan2_zero_one : atan2 0 1 = 0 := by
  unfold atan2
  simp [Complex.arg_one]

lemma atan2_zero_neg_one : atan2 0 (-1) = Real.pi := by
  unfold atan2
  simp [Complex.arg_neg_one]

lemma quat_to_theta_id : quat_to_theta 0 0 0 1 = 0 := by
  unfold quat_to_theta
  norm_num [atan2_zero_one]

lemma quat_to_theta_halfturn : quat_to_theta 0 0 1 0 = Real.pi := by
  unfold quat_to_theta
  norm_num [atan2_zero_neg_one]

lemma hand_dist_r059 :
    npNorm (fun i : Fin 3 => get_hand_goal_pos r059 i - get_endeff_pos r059 i)
      = 0.059 := by
  unfold npNorm
  simp only [Fin.sum_univ_three]
  rw [show get_hand_goal_pos r059 0 - get_endeff_pos r059 0 = 0.059 from by
      rw [show get_hand_goal_pos r059 0 = 0.059 from rfl,
        show get_endeff_pos r059 0 = 0 from rfl]; ring,
    show get_hand_goal_pos r059 1 - get_endeff_pos r059 1 = 0 from by
      rw [show get_hand_goal_pos r059 1 = 0 from rfl,
        show get_endeff_pos r059 1 = 0 from rfl]; ring,
    show get_hand_goal_pos r059 2 - get_endeff_pos r059 2 = 0 from by
      rw [show get_hand_goal_pos r059 2 = 0 from rfl,
        show get_endeff_pos r059 2 = 0 from rfl]; ring]
  rw [show ((0.059 : ℝ) ^ 2 + 0 ^ 2 + 0 ^ 2) = (0.059 : ℝ) ^ 2 from by ring]
  exact Real.sqrt_sq (by norm_num)

lemma hand_dist_r061 :
    npNorm (fun i : Fin 3 => get_hand_goal_pos r061 i - get_endeff_pos r061 i)
      = 0.061 := by
  unfold npNorm
  simp only [Fin.sum_univ_three]
  rw [show get_hand_goal_pos r061 0 - get_endeff_pos r061 0 = 0.061 from by
      rw [show get_hand_goal_pos r061 0 = 0.061 from rfl,
        show get_endeff_pos r061 0 = 0 from rfl]; ring,
    show get_hand_goal_pos r061 1 - get_endeff_pos r061 1 = 0 from by
      rw [show get_hand_goal_pos r061 1 = 0 from rfl,
        show get_endeff_pos r061 1 = 0 from rfl]; ring,
    show get_hand_goal_pos r061 2 - get_endeff_pos r061 2 = 0 from by
      rw [show get_hand_goal_pos r061 2 = 0 from rfl,
        show get_endeff_pos r061 2 = 0 from rfl]; ring]
  rw [show ((0.061 : ℝ) ^ 2 + 0 ^ 2 + 0 ^ 2) = (0.061 : ℝ) ^ 2 from by ring]
  exact Real.sqrt_sq (by norm_num)

lemma puck_dist_r059 :
    npNorm (fun i : Fin 3 => get_puck_goal_xytheta r059 i - get_puck_xytheta r059 i)
      = 0 := by
  have hv : (fun i : Fin 3 =>
      get_puck_goal_xytheta r059 i - get_puck_xytheta r059 i) = fun _ => 0 := by
    funext i
    rw [show get_puck_goal_xytheta r059 i = get_puck_xytheta r059 i from rfl,
      sub_self]
  rw [hv]
  unfold npNorm
  norm_num

lemma puck_dist_r061 :
    npNorm (fun i : Fin 3 => get_puck_goal_xytheta r061 i - get_puck_xytheta r061 i)
      = 0 := by
  have hv : (fun i : Fin 3 =>
      get_puck_goal_xytheta r061 i - get_puck_xytheta r061 i) = fun _ => 0 := by
    funext i
    rw [show get_puck_goal_xytheta r061 i = get_puck_xytheta r061 i from rfl,
      sub_self]
  rw [hv]
  unfold npNorm
  norm_num

lemma stepInfo_success_def (r : Readings) :
    (stepInfo r).success
      = if (stepInfo r).hand_distance + (stepInfo r).puck_distance < 0.06
        then (1 : ℝ) else 0 := rfl

/-- C2: the success diagnostic returned by step is 1 exactly when
hand_distance plus puck_distance is below 0.06 and 0 otherwise, where the
two distances are the Euclidean distances from the hand-goal marker to the
end-effector and from the puck-goal pose (x, y, theta) to the puck pose;
on concrete readings where the sum is 0.059 the flag is 1 and where it is
0.061 the flag is 0. -/
theorem C2_success_threshold :
    (∀ (cfg : EnvConfig) (physics : MjState → MjState)
        (fwd : MjState → Readings) (e : EnvState) (a : Fin 2 → ℝ),
        ((stepEnv cfg physics fwd e a).2.2.2.2.success = 1
          ↔ (stepEnv cfg physics fwd e a).2.2.2.2.hand_distance
              + (stepEnv cfg physics fwd e a).2.2.2.2.puck_distance < 0.06)
        ∧ ((stepEnv cfg physics fwd e a).2.2.2.2.success = 0
          ↔ ¬((stepEnv cfg physics fwd e a).2.2.2.2.hand_distance
              + (stepEnv cfg physics fwd e a).2.2.2.2.puck_distance < 0.06)))
    ∧ (∀ r : Readings,
        (stepInfo r).hand_distance
            = npNorm (fun i : Fin 3 => get_hand_goal_pos r i - get_endeff_pos r i)
          ∧ (stepInfo r).puck_distance
            = npNorm (fun i : Fin 3 =>
                get_puck_goal_xytheta r i - get_puck_xytheta r i))
    ∧ (stepInfo r059).hand_distance + (stepInfo r059).puck_distance = 0.059
    ∧ (stepEnv defaultTCfg (fun t => t) (fun _ => r059)
        { sim := mj0, goal := [] } (fun _ => 0)).2.2.2.2.success = 1
    ∧ (stepInfo r061).hand_distance + (stepInfo r061).puck_distance = 0.061
    ∧ (stepEnv defaultTCfg (fun t => t) (fun _ => r061)
        { sim := mj0, goal := [] } (fun _ => 0)).2.2.2.2.success = 0 := by
  have key : ∀ r : Readings,
      ((stepInfo r).success = 1
        ↔ (stepInfo r).hand_distance + (stepInfo r).puck_distance < 0.06)
      ∧ ((stepInfo r).success = 0
        ↔ ¬((stepInfo r).hand_distance + (stepInfo r).puck_distance < 0.06)) := by
    intro r
    rw [stepInfo_success_def]
    split_ifs with h
    · simp [h]
    · simp [h]
  refine ⟨?_, ?_, ?_, ?_, ?_, ?_⟩
  · intro cfg physics fwd e a
    exact key _
  · intro r
    exact ⟨rfl, rfl⟩
  · show npNorm (fun i : Fin 3 => get_hand_goal_pos r059 i - get_endeff_pos r059 i)
        + npNorm (fun i : Fin 3 =>
            get_puck_goal_xytheta r059 i - get_puck_xytheta r059 i) = 0.059
    rw [hand_dist_r059, puck_dist_r059]
    ring
  · show (stepInfo r059).success = 1
    rw [stepInfo_success_def]
    rw [if_pos]
    show npNorm (fun i : Fin 3 => get_hand_goal_pos r059 i - get_endeff_pos r059 i)
        + npNorm (fun i : Fin 3 =>
            get_puck_goal_xytheta r059 i - get_puck_xytheta r059 i) < 0.06
    rw [hand_dist_r059, puck_dist_r059]
    norm_num
  · show npNorm (fun i : Fin 3 => get_hand_goal_pos r061 i - get_endeff_pos r061 i)
        + npNorm (fun i : Fin 3 =>
            get_puck_goal_xytheta r061 i - get_puck_xytheta r061 i) = 0.061
    rw [hand_dist_r061, puck_dist_r061]
    ring
  · show (stepInfo r061).success = 0
    rw [stepInfo_success_def]
    rw [if_neg]
    show ¬(npNorm (fun i : Fin 3 => get_hand_goal_pos r061 i - get_endeff_pos r061 i)
        + npNorm (fun i : Fin 3 =>
            get_puck_goal_xytheta r061 i - get_puck_xytheta r061 i) < 0.06)
    rw [hand_dist_r061, puck_dist_r061]
    norm_num

/-- C10: the touch_distance diagnostic is the Euclidean norm of the
3-vector whose first two components are the planar end-effector-to-puck
offsets and whose third component subtracts the puck rotation angle from
the end-effector height; at concrete readings with the end-effector at the
origin and the puck rotated by a half-turn it equals pi even though the
planar end-effector-to-puck distance is 0. -/
theorem C10_touch_distance_mixes_height_and_angle :
    (∀ r : Readings,
        (stepInfo r).touch_distance
          = Real.sqrt ((get_endeff_pos r 0 - get_puck_xytheta r 0) ^ 2
              + (get_endeff_pos r 1 - get_puck_xytheta r 1) ^ 2
              + (get_endeff_pos r 2 - get_puck_xytheta r 2) ^ 2)
        ∧ get_puck_xytheta r 2
          = quat_to_theta (r.puck_xquat 1) (r.puck_xquat 2) (r.puck_xquat 3)
              (r.puck_xquat 0))
    ∧ (stepInfo rC10).touch_distance = Real.pi
    ∧ Real.sqrt ((get_endeff_pos rC10 0 - get_puck_xytheta rC10 0) ^ 2
        + (get_endeff_pos rC10 1 - get_puck_xytheta rC10 1) ^ 2) = 0
    ∧ Real.pi ≠ 0 := by
  refine ⟨?_, ?_, ?_, Real.pi_ne_zero⟩
  · intro r
    constructor
    · show npNorm (fun i : Fin 3 => get_endeff_pos r i - get_puck_xytheta r i) = _
      unfold npNorm
      simp only [Fin.sum_univ_three]
    · rfl
  · show npNorm (fun i : Fin 3 => get_endeff_pos rC10 i - get_puck_xytheta rC10 i)
        = Real.pi
    unfold npNorm
    simp only [Fin.sum_univ_three]
    rw [show get_endeff_pos rC10 0 - get_puck_xytheta rC10 0 = 0 from by
        rw [show get_endeff_pos rC10 0 = 0 from rfl,
          show get_puck_xytheta rC10 0 = 0 from rfl]; ring,
      show get_endeff_pos rC10 1 - get_puck_xytheta rC10 1 = 0 from by
        rw [show get_endeff_pos rC10 1 = 0 from rfl,
          show get_puck_xytheta rC10 1 = 0 from rfl]; ring,
      show get_endeff_pos rC10 2 - get_puck_xytheta rC10 2 = -Real.pi from by
        rw [show get_endeff_pos rC10 2 = 0 from rfl,
          show get_puck_xytheta rC10 2 = quat_to_theta 0 0 1 0 from rfl,
          quat_to_theta_halfturn]; ring]
    rw [show ((0 : ℝ) ^ 2 + 0 ^ 2 + (-Real.pi) ^ 2) = Real.pi ^ 2 from by ring]
    exact Real.sqrt_sq Real.pi_pos.le
  · rw [show get_endeff_pos rC10 0 - get_puck_xytheta rC10 0 = 0 from by
        rw [show get_endeff_pos rC10 0 = 0 from rfl,
          show get_puck_xytheta rC10 0 = 0 from rfl]; ring,
      show get_endeff_pos rC10 1 - get_puck_xytheta rC10 1 = 0 from by
        rw [show get_endeff_pos rC10 1 = 0 from rfl,
          show get_puck_xytheta rC10 1 = 0 from rfl]; ring]
    norm_num

/-- Witness for C9 at the fixed-goal configuration and concrete states. -/
theorem C9_reset_fixed_goal_deterministic_witness :
    fixedGoalCfg.randomize_goals = false
      ∧ (resetEnv fixedGoalCfg (fun _ => rZero) { sim := mj0, goal := [] }
          [] [] 0).2.desired_goal
        = fixedGoalCfg.fixed_hand_goal ++ fixedGoalCfg.fixed_puck_goal :=
  ⟨rfl, (C9_reset_fixed_goal_deterministic fixedGoalCfg (fun _ => rZero)
    (fun _ => rZero) { sim := mj0, goal := [] } { sim := mj0, goal := [] }
    [] [] [] [] 0 0 rfl).1⟩
